import Mathlib

/-!
Verification of the FastAPI stock/portfolio service (src/main.py).

The Python module is shallowly embedded:
* the mutable global dictionary `portfolios_db` becomes explicit state
  passing on a functional map `Store`;
* each route handler becomes a pure function returning the new store
  together with either the success message or the `HTTPException` it
  raises (status code and detail);
* Python `float` weights and prices are modelled as rationals;
* dates are modelled by their proleptic Gregorian ordinal (an integer,
  as produced by Python `date.toordinal`), so `timedelta(days = n)`
  is integer addition;
* the external provider (`yfinance`) is a parameter: a function from
  symbol and window bounds to the list of rows of the returned frame.
-/

namespace StockApi

/-- An `HTTPException(status_code, detail)` as raised by the handlers. -/
structure HTTPError where
  status : Nat
  detail : String
deriving Repr, DecidableEq

/-! ## Date parsing, `datetime.strptime(date, "%Y-%m-%d").date()`

CPython `strptime` matches `%Y` as exactly four digits and `%m`, `%d`
as one or two digits; the month must be 1..12 and the day must exist
in that month, the year must be at least 1, otherwise `ValueError`.
The parsed date is represented by its `toordinal` value. -/

def isLeap (y : Nat) : Bool := y % 4 = 0 && (y % 100 != 0 || y % 400 = 0)

def daysInMonth (y m : Nat) : Nat :=
  if m = 2 then (if isLeap y then 29 else 28)
  else if m = 4 || m = 6 || m = 9 || m = 11 then 30
  else 31

def daysBeforeYear (y : Nat) : Nat :=
  let n := y - 1
  n * 365 + n / 4 - n / 100 + n / 400

def daysBeforeMonth (y m : Nat) : Nat :=
  (List.range (m - 1)).foldl (fun acc i => acc + daysInMonth y (i + 1)) 0

/-- Proleptic Gregorian ordinal of year/month/day, as Python
`date(y, m, d).toordinal()` (0001-01-01 has ordinal 1). -/
def toOrdinal (y m d : Nat) : Int :=
  ((daysBeforeYear y + daysBeforeMonth y m + d : Nat) : Int)

/-- Split a character list at every dash (the separator groups of
`"%Y-%m-%d"`). -/
def splitDash : List Char → List (List Char)
  | [] => [[]]
  | c :: cs =>
    if c = '-' then [] :: splitDash cs
    else
      match splitDash cs with
      | [] => [[c]]
      | g :: gs => (c :: g) :: gs

/-- Numeric value of a digit group. -/
def digitsToNat (cs : List Char) : Nat :=
  cs.foldl (fun acc c => acc * 10 + (c.toNat - 48)) 0

/-- Model of `datetime.strptime(s, "%Y-%m-%d").date()`: `none` when the
call raises `ValueError` (the regex for `%Y` is four digits, for `%m`
and `%d` one or two digits, and the field values must form a real
calendar date with year at least 1), otherwise the ordinal of the
parsed date. -/
def parseDate (s : String) : Option Int :=
  match splitDash s.toList with
  | [ys, ms, ds] =>
    if ys.length = 4 ∧ ys.all Char.isDigit
        ∧ 1 ≤ ms.length ∧ ms.length ≤ 2 ∧ ms.all Char.isDigit
        ∧ 1 ≤ ds.length ∧ ds.length ≤ 2 ∧ ds.all Char.isDigit then
      let y := digitsToNat ys
      let m := digitsToNat ms
      let d := digitsToNat ds
      if 1 ≤ y ∧ 1 ≤ m ∧ m ≤ 12 ∧ 1 ≤ d ∧ d ≤ daysInMonth y m then
        some (toOrdinal y m d)
      else none
    else none
  | _ => none

/-! ## Price lookup, `get_stock_price_on_date` -/

/-- One row of the frame returned by `stock.history(...)`: the index
date (as an ordinal) and the `Close` column. -/
structure Entry where
  date : Int
  close : Rat
deriving Repr, DecidableEq

/-- The provider: `fetch symbol start stop` is the list of rows of
`yf.Ticker(symbol).history(start, end)`. -/
def Provider : Type := String → Int → Int → List Entry

/-- Python `round(x, 2)`: round to two decimals, ties to even. -/
def roundHalfEven (q : Rat) : Int :=
  let f : Int := ⌊q⌋
  if q - f < 1 / 2 then f
  else if q - f > 1 / 2 then f + 1
  else if f % 2 = 0 then f else f + 1

def round2 (q : Rat) : Rat := (roundHalfEven (q * 100) : Rat) / 100

/-- Python `min(xs, key)` on a nonempty list `acc :: l`: the first
element attaining the minimal key. -/
def pyMin (key : Entry → Int) (acc : Entry) : List Entry → Entry
  | [] => acc
  | e :: l => pyMin key (if key e < key acc then e else acc) l

/-- The JSON object returned on success; `closest_date` is kept as an
ordinal (the route serialises it with `isoformat`). -/
structure PriceResp where
  symbol : String
  requested_date : String
  closest_date : Int
  closing_price : Rat
deriving Repr, DecidableEq

/-- An exception escaping the `try` block of the handler. -/
inductive Exc where
  | valueError (msg : String)
  | httpExc (status : Nat) (detail : String)
deriving Repr, DecidableEq

/-- Python `str(e)`; Starlette `HTTPException.__str__` is
`f"{status_code}: {detail}"`. -/
def excStr : Exc → String
  | .valueError m => m
  | .httpExc s d => toString s ++ ": " ++ d

/-- The `try` block of `get_stock_price_on_date` (src/main.py lines
48-67): parse the date, fetch the ±3-day window, 404 when empty,
otherwise answer with the entry whose date is closest to the target. -/
def priceBody (fetch : Provider) (symbol date : String) : Except Exc PriceResp :=
  match parseDate date with
  | none => .error (.valueError ("time data " ++ date ++ " does not match format"))
  | some dateObj =>
    match fetch symbol (dateObj - 3) (dateObj + 3) with
    | [] => .error (.httpExc 404
        ("No hay datos disponibles para " ++ symbol ++ " en " ++ date))
    | e :: rest =>
      let closest := pyMin (fun d => |d.date - dateObj|) e rest
      .ok ⟨symbol, date, closest.date, round2 closest.close⟩

/-- `get_stock_price_on_date` with its `except` clauses (lines 69-75):
`ValueError` becomes 400; every other exception — including the
`HTTPException` raised inside the `try` — becomes 500. -/
def get_stock_price_on_date (fetch : Provider) (symbol date : String) :
    Except HTTPError PriceResp :=
  match priceBody fetch symbol date with
  | .ok r => .ok r
  | .error (.valueError _) =>
      .error ⟨400, "El formato de la fecha debe ser YYYY-MM-DD"⟩
  | .error e => .error ⟨500, excStr e⟩

/-! ## Portfolio CRUD

`portfolios_db` is a dictionary from `user_id` to the `stocks`
dictionary of the stored portfolio; here it is a functional map, and
the weight dictionary is an association list (JSON object keys are
distinct; order is irrelevant to every handler, which only sums the
values or stores the whole dictionary). -/

/-- The `stocks` field of the Pydantic `Portfolio` model:
symbol ↦ weight. -/
def Stocks : Type := List (String × Rat)
deriving DecidableEq

/-- The Pydantic body model `Portfolio(BaseModel)`. -/
structure Portfolio where
  stocks : Stocks
deriving DecidableEq

/-- The in-memory store `portfolios_db`. -/
def Store : Type := String → Option Stocks

/-- The store at process start: the empty dictionary. -/
def Store.empty : Store := fun _ => none

/-- `portfolios_db[user_id] = stocks`. -/
def Store.insert (db : Store) (user_id : String) (stocks : Stocks) : Store :=
  fun u => if u = user_id then some stocks else db u

/-- `del portfolios_db[user_id]`. -/
def Store.erase (db : Store) (user_id : String) : Store :=
  fun u => if u = user_id then none else db u

/-- `sum(portfolio.stocks.values())`. -/
def totalWeight (stocks : Stocks) : Rat :=
  (stocks.map Prod.snd).sum

/-- Result of a handler acting on the store: the store after the call
together with the confirmation message or the raised exception. -/
def CrudResult : Type := Store × Except HTTPError String

/-- `save_portfolio` (POST, src/main.py lines 114-137): 400 when the
user already has a portfolio, 400 when the weights do not sum to 100,
otherwise store and confirm. -/
def save_portfolio (db : Store) (user_id : String) (portfolio : Portfolio) :
    CrudResult :=
  if (db user_id).isSome then
    (db, .error ⟨400, "El usuario " ++ user_id ++ " ya tiene un portafolio guardado"⟩)
  else if totalWeight portfolio.stocks ≠ 100 then
    (db, .error ⟨400, "Las ponderaciones deben sumar 100%"⟩)
  else
    (db.insert user_id portfolio.stocks,
     .ok ("Portafolio guardado para el usuario " ++ user_id))

/-- `update_portfolio` (PUT, lines 144-165): 404 when the user has no
portfolio, 400 when the weights do not sum to 100, otherwise
overwrite and confirm. -/
def update_portfolio (db : Store) (user_id : String) (portfolio : Portfolio) :
    CrudResult :=
  if (db user_id).isSome = false then
    (db, .error ⟨404, "Portafolio no encontrado para este usuario"⟩)
  else if totalWeight portfolio.stocks ≠ 100 then
    (db, .error ⟨400, "Las ponderaciones deben sumar 100%"⟩)
  else
    (db.insert user_id portfolio.stocks,
     .ok ("Portafolio actualizado para el usuario " ++ user_id))

/-- `delete_portfolio` (DELETE, lines 173-190): 404 when the user has
no portfolio, otherwise remove and confirm. -/
def delete_portfolio (db : Store) (user_id : String) : CrudResult :=
  if (db user_id).isSome = false then
    (db, .error ⟨404, "Portafolio no encontrado para este usuario"⟩)
  else
    (db.erase user_id,
     .ok ("Portafolio eliminado para el usuario " ++ user_id))

/-! ## Sequences of CRUD requests -/

/-- One CRUD request against the store. -/
inductive Op where
  | create (user_id : String) (portfolio : Portfolio)
  | update (user_id : String) (portfolio : Portfolio)
  | delete (user_id : String)

/-- The `user_id` a request addresses. -/
def Op.user : Op → String
  | .create u _ => u
  | .update u _ => u
  | .delete u => u

/-- Dispatch one request to its handler. -/
def applyOp (db : Store) : Op → CrudResult
  | .create u p => save_portfolio db u p
  | .update u p => update_portfolio db u p
  | .delete u => delete_portfolio db u

/-- The store after serving a sequence of requests from process
start. -/
def runOps (ops : List Op) : Store :=
  ops.foldl (fun db op => (applyOp db op).1) Store.empty

/-! ## Theorems -/

/-- C5: a POST for a `user_id` that already has a stored portfolio
fails with the Conflict error (status 400, duplicate-user detail)
whatever the body, and the store — in particular the stored portfolio
of that user — is unchanged. -/
theorem create_conflict (db : Store) (user_id : String) (p : Portfolio) (s : Stocks)
    (h : db user_id = some s) :
    save_portfolio db user_id p =
      (db, .error ⟨400, "El usuario " ++ user_id ++ " ya tiene un portafolio guardado"⟩) := by
  unfold save_portfolio
  simp [h]

/-- Witness for C5 at a concrete store and body. -/
theorem create_conflict_witness :
    (Store.empty.insert "alice" ([("AAPL", 100)] : Stocks)) "alice" =
      some ([("AAPL", 100)] : Stocks) ∧
    save_portfolio (Store.empty.insert "alice" ([("AAPL", 100)] : Stocks)) "alice"
        ⟨[("MSFT", 100)]⟩ =
      (Store.empty.insert "alice" ([("AAPL", 100)] : Stocks),
       .error ⟨400, "El usuario " ++ "alice" ++ " ya tiene un portafolio guardado"⟩) :=
  ⟨rfl, create_conflict _ _ _ _ rfl⟩

/-- C6: a PUT or a DELETE for a `user_id` with no stored portfolio
fails with NotFound (404) whatever the body, and the store is
unchanged. -/
theorem unknown_user_not_found (db : Store) (user_id : String) (p : Portfolio)
    (h : db user_id = none) :
    update_portfolio db user_id p =
      (db, .error ⟨404, "Portafolio no encontrado para este usuario"⟩) ∧
    delete_portfolio db user_id =
      (db, .error ⟨404, "Portafolio no encontrado para este usuario"⟩) := by
  unfold update_portfolio delete_portfolio
  simp [h]

/-- Witness for C6 on the empty store. -/
theorem unknown_user_not_found_witness :
    Store.empty "bob" = none ∧
    (update_portfolio Store.empty "bob" ⟨[("AAPL", 100)]⟩ =
       (Store.empty, .error ⟨404, "Portafolio no encontrado para este usuario"⟩) ∧
     delete_portfolio Store.empty "bob" =
       (Store.empty, .error ⟨404, "Portafolio no encontrado para este usuario"⟩)) :=
  ⟨rfl, unknown_user_not_found Store.empty "bob" ⟨[("AAPL", 100)]⟩ rfl⟩

/-- C8: a successful PUT replaces the stored portfolio wholesale: the
post-state entry for `user_id` is exactly the submitted `stocks`
dictionary (so nothing of the previous portfolio survives), and the
call confirms. -/
theorem update_replaces_wholesale (db : Store) (user_id : String) (p : Portfolio)
    (old : Stocks) (hold : db user_id = some old)
    (hw : totalWeight p.stocks = 100) :
    (update_portfolio db user_id p).1 user_id = some p.stocks ∧
    (update_portfolio db user_id p).2 =
      .ok ("Portafolio actualizado para el usuario " ++ user_id) := by
  unfold update_portfolio
  simp [hold, hw, Store.insert]

/-- Witness for C8: the old portfolio (all MSFT) leaves no trace. -/
theorem update_replaces_wholesale_witness :
    (Store.empty.insert "alice" ([("MSFT", 100)] : Stocks)) "alice" =
      some ([("MSFT", 100)] : Stocks) ∧
    totalWeight ([("AAPL", 60), ("GOOG", 40)] : Stocks) = 100 ∧
    ((update_portfolio (Store.empty.insert "alice" ([("MSFT", 100)] : Stocks)) "alice"
        ⟨[("AAPL", 60), ("GOOG", 40)]⟩).1 "alice" =
          some ([("AAPL", 60), ("GOOG", 40)] : Stocks) ∧
     (update_portfolio (Store.empty.insert "alice" ([("MSFT", 100)] : Stocks)) "alice"
        ⟨[("AAPL", 60), ("GOOG", 40)]⟩).2 =
       .ok ("Portafolio actualizado para el usuario " ++ "alice")) :=
  ⟨rfl, by norm_num [totalWeight],
   update_replaces_wholesale _ _ _ _ rfl (by norm_num [totalWeight])⟩

/-- The POST handler reads and writes only the key it is addressed
to. -/
theorem save_portfolio_frame (db : Store) (user_id : String) (p : Portfolio)
    (u : String) (h : u ≠ user_id) :
    (save_portfolio db user_id p).1 u = db u := by
  by_cases h1 : (db user_id).isSome = true
  · simp [save_portfolio, h1]
  · by_cases h2 : totalWeight p.stocks = 100
    · simp [save_portfolio, h1, h2, Store.insert, h]
    · simp [save_portfolio, h1, h2]

/-- The PUT handler reads and writes only the key it is addressed
to. -/
theorem update_portfolio_frame (db : Store) (user_id : String) (p : Portfolio)
    (u : String) (h : u ≠ user_id) :
    (update_portfolio db user_id p).1 u = db u := by
  by_cases h1 : (db user_id).isSome = false
  · simp [update_portfolio, h1]
  · by_cases h2 : totalWeight p.stocks = 100
    · simp [update_portfolio, h1, h2, Store.insert, h]
    · simp [update_portfolio, h1, h2]

/-- The DELETE handler reads and writes only the key it is addressed
to. -/
theorem delete_portfolio_frame (db : Store) (user_id : String)
    (u : String) (h : u ≠ user_id) :
    (delete_portfolio db user_id).1 u = db u := by
  by_cases h1 : (db user_id).isSome = false
  · simp [delete_portfolio, h1]
  · simp [delete_portfolio, h1, Store.erase, h]

/-- C9: no handler touches the entry of any other user: after a
create, update or delete addressed to one `user_id`, the store agrees
with the pre-state on every other key, whether the call succeeded or
raised. -/
theorem other_users_unchanged (db : Store) (op : Op) (u : String)
    (h : u ≠ op.user) : (applyOp db op).1 u = db u := by
  cases op with
  | create uid p => exact save_portfolio_frame db uid p u h
  | update uid p => exact update_portfolio_frame db uid p u h
  | delete uid => exact delete_portfolio_frame db uid u h

/-- Witness for C9: a create for alice leaves bob's entry alone. -/
theorem other_users_unchanged_witness :
    "bob" ≠ (Op.create "alice" ⟨[("AAPL", 100)]⟩).user ∧
    (applyOp Store.empty (Op.create "alice" ⟨[("AAPL", 100)]⟩)).1 "bob" =
      Store.empty "bob" :=
  ⟨by decide, other_users_unchanged Store.empty (Op.create "alice" ⟨[("AAPL", 100)]⟩)
    "bob" (by decide)⟩

/-- When the POST handler raises, it has not written the store. -/
theorem save_portfolio_fail_frame (db : Store) (user_id : String) (p : Portfolio)
    (e : HTTPError) (h : (save_portfolio db user_id p).2 = .error e) :
    (save_portfolio db user_id p).1 = db := by
  by_cases h1 : (db user_id).isSome = true
  · simp [save_portfolio, h1]
  · by_cases h2 : totalWeight p.stocks = 100
    · simp [save_portfolio, h1, h2] at h
    · simp [save_portfolio, h1, h2]

/-- When the PUT handler raises, it has not written the store. -/
theorem update_portfolio_fail_frame (db : Store) (user_id : String) (p : Portfolio)
    (e : HTTPError) (h : (update_portfolio db user_id p).2 = .error e) :
    (update_portfolio db user_id p).1 = db := by
  by_cases h1 : (db user_id).isSome = false
  · simp [update_portfolio, h1]
  · by_cases h2 : totalWeight p.stocks = 100
    · simp [update_portfolio, h1, h2] at h
    · simp [update_portfolio, h1, h2]

/-- When the DELETE handler raises, it has not written the store. -/
theorem delete_portfolio_fail_frame (db : Store) (user_id : String)
    (e : HTTPError) (h : (delete_portfolio db user_id).2 = .error e) :
    (delete_portfolio db user_id).1 = db := by
  by_cases h1 : (db user_id).isSome = false
  · simp [delete_portfolio, h1]
  · simp [delete_portfolio, h1] at h

/-- C10: a failed request (Conflict, ValidationError or NotFound)
leaves the whole store exactly as it was. -/
theorem failed_op_leaves_store (db : Store) (op : Op) (e : HTTPError)
    (h : (applyOp db op).2 = .error e) : (applyOp db op).1 = db := by
  cases op with
  | create uid p => exact save_portfolio_fail_frame db uid p e h
  | update uid p => exact update_portfolio_fail_frame db uid p e h
  | delete uid => exact delete_portfolio_fail_frame db uid e h

/-- Witness for C10: a delete of an absent user fails with 404 and the
store is untouched. -/
theorem failed_op_leaves_store_witness :
    (applyOp Store.empty (Op.delete "ghost")).2 =
      .error ⟨404, "Portafolio no encontrado para este usuario"⟩ ∧
    (applyOp Store.empty (Op.delete "ghost")).1 = Store.empty :=
  ⟨rfl, failed_op_leaves_store Store.empty (Op.delete "ghost") _ rfl⟩

/-- Every portfolio present in the store has weights summing to
exactly 100. -/
def Store.valid (db : Store) : Prop :=
  ∀ u s, db u = some s → totalWeight s = 100

theorem Store.valid_empty : Store.empty.valid := by
  intro u s h
  simp [Store.empty] at h

theorem Store.valid_insert (db : Store) (uid : String) (s : Stocks)
    (hdb : db.valid) (hs : totalWeight s = 100) : (db.insert uid s).valid := by
  intro u s' h
  unfold Store.insert at h
  split at h
  · cases h
    exact hs
  · exact hdb u s' h

theorem Store.valid_erase (db : Store) (uid : String)
    (hdb : db.valid) : (db.erase uid).valid := by
  intro u s' h
  unfold Store.erase at h
  split at h
  · cases h
  · exact hdb u s' h

/-- Each handler preserves the sum-to-100 invariant of the store. -/
theorem applyOp_preserves_valid (db : Store) (op : Op) (hdb : db.valid) :
    (applyOp db op).1.valid := by
  cases op with
  | create uid p =>
    show (save_portfolio db uid p).1.valid
    by_cases h1 : (db uid).isSome = true
    · simpa [save_portfolio, h1] using hdb
    · by_cases h2 : totalWeight p.stocks = 100
      · simp only [save_portfolio, h1, h2]
        simpa using Store.valid_insert db uid p.stocks hdb h2
      · simpa [save_portfolio, h1, h2] using hdb
  | update uid p =>
    show (update_portfolio db uid p).1.valid
    by_cases h1 : (db uid).isSome = false
    · simpa [update_portfolio, h1] using hdb
    · by_cases h2 : totalWeight p.stocks = 100
      · simp only [update_portfolio, h1, h2]
        simpa using Store.valid_insert db uid p.stocks hdb h2
      · simpa [update_portfolio, h1, h2] using hdb
  | delete uid =>
    show (delete_portfolio db uid).1.valid
    by_cases h1 : (db uid).isSome = false
    · simpa [delete_portfolio, h1] using hdb
    · simp only [delete_portfolio, h1]
      simpa using Store.valid_erase db uid hdb

theorem foldl_preserves_valid (ops : List Op) (db : Store) (hdb : db.valid) :
    (ops.foldl (fun db op => (applyOp db op).1) db).valid := by
  induction ops generalizing db with
  | nil => exact hdb
  | cons op rest ih =>
    exact ih ((applyOp db op).1) (applyOp_preserves_valid db op hdb)

/-- C7: after any sequence of create/update/delete requests served
from the empty store, every stored portfolio has weights summing to
exactly 100. -/
theorem weights_invariant (ops : List Op) (u : String) (s : Stocks)
    (h : runOps ops u = some s) : totalWeight s = 100 :=
  foldl_preserves_valid ops Store.empty Store.valid_empty u s h

/-- Witness for C7: one successful create, then the stored weights sum
to 100. -/
theorem weights_invariant_witness :
    runOps [Op.create "alice" ⟨[("AAPL", 60), ("GOOG", 40)]⟩] "alice" =
      some ([("AAPL", 60), ("GOOG", 40)] : Stocks) ∧
    totalWeight ([("AAPL", 60), ("GOOG", 40)] : Stocks) = 100 :=
  have h : runOps [Op.create "alice" ⟨[("AAPL", 60), ("GOOG", 40)]⟩] "alice" =
      some ([("AAPL", 60), ("GOOG", 40)] : Stocks) := by
    norm_num [runOps, applyOp, save_portfolio, totalWeight, Store.empty, Store.insert]
  ⟨h, weights_invariant [Op.create "alice" ⟨[("AAPL", 60), ("GOOG", 40)]⟩] "alice" _ h⟩

/-- C4 as stated is false: on the empty store, a PUT whose weights sum
to 99.9 (≠ 100) fails with NotFound 404 — the existence check runs
before the weight check — not with the 400 validation error. -/
theorem weights_validation_counterexample :
    totalWeight ([("AAPL", 99.9)] : Stocks) ≠ 100 ∧
    (update_portfolio Store.empty "alice" ⟨[("AAPL", 99.9)]⟩).2 =
      Except.error ⟨404, "Portafolio no encontrado para este usuario"⟩ ∧
    (404 : Nat) ≠ 400 :=
  ⟨by norm_num [totalWeight], rfl, by decide⟩

/-- C4 amended: a body whose weights do not sum to 100 is never
stored: POST and PUT both fail and leave the store unchanged; the
failure is the 400 weight-validation error whenever the existence
check passes (POST: the user has no portfolio; PUT: the user has
one), the existence check being performed first. -/
theorem weights_validation (db : Store) (user_id : String) (p : Portfolio)
    (hw : totalWeight p.stocks ≠ 100) :
    ((save_portfolio db user_id p).1 = db ∧
      (∃ e, (save_portfolio db user_id p).2 = Except.error e) ∧
      (db user_id = none →
        (save_portfolio db user_id p).2 =
          Except.error ⟨400, "Las ponderaciones deben sumar 100%"⟩)) ∧
    ((update_portfolio db user_id p).1 = db ∧
      (∃ e, (update_portfolio db user_id p).2 = Except.error e) ∧
      ((db user_id).isSome = true →
        (update_portfolio db user_id p).2 =
          Except.error ⟨400, "Las ponderaciones deben sumar 100%"⟩)) := by
  constructor
  · by_cases h1 : (db user_id).isSome = true
    · refine ⟨by simp [save_portfolio, h1], ?_, ?_⟩
      · exact ⟨⟨400, "El usuario " ++ user_id ++ " ya tiene un portafolio guardado"⟩,
          by simp [save_portfolio, h1]⟩
      · intro hnone
        rw [hnone] at h1
        simp at h1
    · refine ⟨by simp [save_portfolio, h1, hw], ?_, fun _ => ?_⟩
      · exact ⟨⟨400, "Las ponderaciones deben sumar 100%"⟩,
          by simp [save_portfolio, h1, hw]⟩
      · simp [save_portfolio, h1, hw]
  · by_cases h1 : (db user_id).isSome = false
    · refine ⟨by simp [update_portfolio, h1], ?_, ?_⟩
      · exact ⟨⟨404, "Portafolio no encontrado para este usuario"⟩,
          by simp [update_portfolio, h1]⟩
      · intro hsome
        rw [h1] at hsome
        cases hsome
    · refine ⟨by simp [update_portfolio, h1, hw], ?_, fun _ => ?_⟩
      · exact ⟨⟨400, "Las ponderaciones deben sumar 100%"⟩,
          by simp [update_portfolio, h1, hw]⟩
      · simp [update_portfolio, h1, hw]

/-- Witness for the amended C4 at 99.9 on the empty store. -/
theorem weights_validation_witness :
    totalWeight (Portfolio.mk [("AAPL", 99.9)]).stocks ≠ 100 ∧
    (((save_portfolio Store.empty "alice" ⟨[("AAPL", 99.9)]⟩).1 = Store.empty ∧
      (∃ e, (save_portfolio Store.empty "alice" ⟨[("AAPL", 99.9)]⟩).2 = Except.error e) ∧
      (Store.empty "alice" = none →
        (save_portfolio Store.empty "alice" ⟨[("AAPL", 99.9)]⟩).2 =
          Except.error ⟨400, "Las ponderaciones deben sumar 100%"⟩)) ∧
    ((update_portfolio Store.empty "alice" ⟨[("AAPL", 99.9)]⟩).1 = Store.empty ∧
      (∃ e, (update_portfolio Store.empty "alice" ⟨[("AAPL", 99.9)]⟩).2 = Except.error e) ∧
      ((Store.empty "alice").isSome = true →
        (update_portfolio Store.empty "alice" ⟨[("AAPL", 99.9)]⟩).2 =
          Except.error ⟨400, "Las ponderaciones deben sumar 100%"⟩))) :=
  ⟨by norm_num [totalWeight],
   weights_validation Store.empty "alice" ⟨[("AAPL", 99.9)]⟩ (by norm_num [totalWeight])⟩

/-- C2: a date string `strptime` rejects makes the lookup fail with
the 400 format error; the result is the same fixed error for every
provider, so the provider is never consulted. -/
theorem invalid_date_400 (symbol date : String) (h : parseDate date = none) :
    ∀ fetch : Provider, get_stock_price_on_date fetch symbol date =
      Except.error ⟨400, "El formato de la fecha debe ser YYYY-MM-DD"⟩ := by
  intro fetch
  unfold get_stock_price_on_date priceBody
  rw [h]

/-- Witness for C2 on a slash-separated date. -/
theorem invalid_date_400_witness :
    parseDate "2022/05/10" = none ∧
    get_stock_price_on_date (fun _ _ _ => [⟨738285, 50⟩]) "AAPL" "2022/05/10" =
      Except.error ⟨400, "El formato de la fecha debe ser YYYY-MM-DD"⟩ :=
  ⟨rfl, invalid_date_400 "AAPL" "2022/05/10" rfl (fun _ _ _ => [⟨738285, 50⟩])⟩

/-- C1 (code bug): when the provider returns no data in the window,
the handler answers 500, not the documented 404: the
`HTTPException(404)` raised inside the `try` block is caught by the
blanket `except Exception` clause and re-raised as a 500 whose detail
is the string of the original exception. -/
theorem empty_window_returns_500 (fetch : Provider) (symbol date : String)
    (dateObj : Int) (hp : parseDate date = some dateObj)
    (he : fetch symbol (dateObj - 3) (dateObj + 3) = []) :
    get_stock_price_on_date fetch symbol date =
      Except.error ⟨500,
        excStr (.httpExc 404
          ("No hay datos disponibles para " ++ symbol ++ " en " ++ date))⟩ := by
  simp only [get_stock_price_on_date, priceBody, hp, he]

/-- Witness for C1: AAPL at 2022-05-10 with an empty window gives the
500 with the stringified 404 inside. -/
theorem empty_window_returns_500_witness :
    parseDate "2022-05-10" = some 738285 ∧
    (fun (_ : String) (_ _ : Int) => ([] : List Entry)) "AAPL" (738285 - 3) (738285 + 3) = [] ∧
    get_stock_price_on_date (fun _ _ _ => []) "AAPL" "2022-05-10" =
      Except.error ⟨500, "404: No hay datos disponibles para AAPL en 2022-05-10"⟩ :=
  ⟨by decide, rfl,
   empty_window_returns_500 (fun _ _ _ => []) "AAPL" "2022-05-10" 738285 (by decide) rfl⟩

theorem pyMin_mem (key : Entry → Int) (l : List Entry) :
    ∀ acc, pyMin key acc l ∈ acc :: l := by
  induction l with
  | nil => intro acc; simp [pyMin]
  | cons e l ih =>
    intro acc
    show pyMin key (if key e < key acc then e else acc) l ∈ acc :: e :: l
    have h := ih (if key e < key acc then e else acc)
    rw [List.mem_cons] at h
    rcases h with h | h
    · rw [h]
      split
      · simp
      · simp
    · simp [List.mem_cons, h]

theorem pyMin_le (key : Entry → Int) (l : List Entry) :
    ∀ acc x, x ∈ acc :: l → key (pyMin key acc l) ≤ key x := by
  induction l with
  | nil =>
    intro acc x hx
    rw [List.mem_singleton] at hx
    rw [hx]
    simp [pyMin]
  | cons e l ih =>
    intro acc x hx
    show key (pyMin key (if key e < key acc then e else acc) l) ≤ key x
    have hacc : key (if key e < key acc then e else acc) ≤ key acc := by
      split
      · omega
      · exact le_refl _
    have he : key (if key e < key acc then e else acc) ≤ key e := by
      split
      · exact le_refl _
      · omega
    have hhead := ih (if key e < key acc then e else acc) _
      (List.mem_cons_self _ _)
    rcases List.mem_cons.mp hx with rfl | hx'
    · exact le_trans hhead hacc
    · rcases List.mem_cons.mp hx' with rfl | hx''
      · exact le_trans hhead he
      · exact ih _ x (List.mem_cons_of_mem _ hx'')

/-- C3: on a well-formed date and a non-empty window, the lookup
answers with an entry of the window whose date minimises the distance
to the target, reporting that date and its (rounded) closing price. -/
theorem closest_date_selected (fetch : Provider) (symbol date : String)
    (dateObj : Int) (hp : parseDate date = some dateObj)
    (hne : fetch symbol (dateObj - 3) (dateObj + 3) ≠ []) :
    ∃ e ∈ fetch symbol (dateObj - 3) (dateObj + 3),
      get_stock_price_on_date fetch symbol date =
        Except.ok ⟨symbol, date, e.date, round2 e.close⟩ ∧
      ∀ x ∈ fetch symbol (dateObj - 3) (dateObj + 3),
        |e.date - dateObj| ≤ |x.date - dateObj| := by
  rcases hl : fetch symbol (dateObj - 3) (dateObj + 3) with _ | ⟨e, rest⟩
  · exact absurd hl hne
  · refine ⟨pyMin (fun d => |d.date - dateObj|) e rest, ?_, ?_, ?_⟩
    · exact pyMin_mem _ rest e
    · simp only [get_stock_price_on_date, priceBody, hp, hl]
    · intro x hx
      exact pyMin_le (fun d => |d.date - dateObj|) rest e x hx

/-- Witness for C3: the window holds entries one day after and exactly
on the target; the exact-day entry (distance 0) is selected. -/
theorem closest_date_selected_witness :
    parseDate "2022-05-10" = some 738285 ∧
    (fun (_ : String) (_ _ : Int) => [Entry.mk 738286 100, Entry.mk 738285 50])
        "AAPL" (738285 - 3) (738285 + 3) ≠ [] ∧
    (∃ e ∈ (fun (_ : String) (_ _ : Int) => [Entry.mk 738286 100, Entry.mk 738285 50])
          "AAPL" (738285 - 3) (738285 + 3),
      get_stock_price_on_date
          (fun _ _ _ => [Entry.mk 738286 100, Entry.mk 738285 50]) "AAPL" "2022-05-10" =
        Except.ok ⟨"AAPL", "2022-05-10", e.date, round2 e.close⟩ ∧
      ∀ x ∈ (fun (_ : String) (_ _ : Int) => [Entry.mk 738286 100, Entry.mk 738285 50])
          "AAPL" (738285 - 3) (738285 + 3),
        |e.date - 738285| ≤ |x.date - 738285|) :=
  ⟨by decide, by simp,
   closest_date_selected (fun _ _ _ => [Entry.mk 738286 100, Entry.mk 738285 50])
     "AAPL" "2022-05-10" 738285 (by decide) (by simp)⟩

end StockApi
